import Mathlib

/-!
# Verification of the telegram_forex_bot signal-outcome resolution engine

Shallow embedding of the core of the repository: the offline evaluator
(`src/mt_bot/evaluator.py`, class `Evaluator`) and the live trade monitor
(`src/mt_bot/trade_monitor.py`, class `TradeMonitor`), together with the
data model they operate on (`src/domain/models.py`, `src/models/trade_handle.py`).

Prices are modelled as rationals (`ℚ`), timestamps as natural numbers
(epoch seconds; historical tick timestamps are in milliseconds, as in the
source).  External collaborators (the MT5 quote/bar/tick/deal sources) are
passed in as explicit function arguments, mirroring the interface boundary
of the spec.  Python's `None` becomes `Option`, a raised exception becomes
`Except.error`.
-/

/-- The `Signal` dataclass of `src/domain/models.py` (the one imported by
the evaluator): message id, issuance timestamp, symbol, direction string,
entry band bounds, take-profit, stop-loss, raw text. -/
structure Signal where
  message_id : Int
  created_at : Nat
  symbol : String
  side : String
  entry_low : ℚ
  entry_high : ℚ
  tp : ℚ
  sl : ℚ
  raw_text : String
  deriving Repr, DecidableEq

/-- The result of `mt5.symbol_info_tick(symbol)`: current best ask and bid.
`decide_entry` receives it as `Option` (`None` when the quote source has no
data for the symbol). -/
structure SymbolInfoTick where
  ask : ℚ
  bid : ℚ
  deriving Repr, DecidableEq

/-- One M1 bar as consumed by the evaluator: `bar['time']` (epoch seconds),
`bar['high']`, `bar['low']`.  The open/close fields of the source record are
never read by the evaluator and are omitted. -/
structure Bar where
  time : Nat
  high : ℚ
  low : ℚ
  deriving Repr, DecidableEq

/-- One historical tick as consumed by `_resolve_tie`: `tick['time']`
(epoch milliseconds, divided by 1000 in the source), `tick['ask']`,
`tick['bid']`. -/
structure Tick where
  time : Nat
  ask : ℚ
  bid : ℚ
  deriving Repr, DecidableEq

/-- The result dict built by `Evaluator._make_result`:
`{'status': 'TP'|'SL'|None, 'hit_time': ..., 'entry_type': ..., 'notes': ...}`.
`hit_time` is a rational because tick times are `tick['time'] / 1000`. -/
structure Outcome where
  status : Option String
  hit_time : Option ℚ
  entry_type : String
  notes : String
  deriving Repr, DecidableEq

/-- `Evaluator._make_result` (evaluator.py lines 133-140). -/
def make_result (status : Option String) (hit_time : Option ℚ)
    (entry_type : String) (notes : String) : Outcome :=
  { status := status, hit_time := hit_time, entry_type := entry_type, notes := notes }

/-- Python's `str.upper()` restricted to ASCII, as applied to the `side`
strings (`"BUY"`, `"SELL"`, `"buy"`, ...): uppercases every character. -/
def pyUpper (s : String) : String :=
  String.mk (s.data.map Char.toUpper)

/-- `Evaluator.decide_entry` (evaluator.py lines 19-39).  The module-level
`mt5.symbol_info_tick(symbol)` call is modelled by the `tick` argument; the
`symbol` string itself is only used for that lookup and is dropped.  The
source upper-cases `side` and treats every non-`"BUY"` side as a sell. -/
def decide_entry (tick : Option SymbolInfoTick) (side : String)
    (entry_low entry_high : ℚ) : String × Option ℚ :=
  match tick with
  | none => ("MARKET", none)
  | some t =>
    let ask := t.ask
    let bid := t.bid
    let side := pyUpper side
    if side = "BUY" then
      if entry_low > ask then ("BUY_STOP", some entry_low)
      else if entry_high < ask then ("BUY_LIMIT", some entry_high)
      else ("MARKET", some ask)
    else
      if entry_high < bid then ("SELL_STOP", some entry_high)
      else if entry_low > bid then ("SELL_LIMIT", some entry_low)
      else ("MARKET", some bid)

example : decide_entry (some ⟨3, 2⟩) "BUY" 5 6 = ("BUY_STOP", some 5) := by decide
example : decide_entry (some ⟨7, 2⟩) "buy" 5 6 = ("BUY_LIMIT", some 6) := by decide
example : decide_entry (some ⟨3, 4⟩) "SELL" 5 6 = ("SELL_LIMIT", some 5) := by decide
example : decide_entry none "SELL" 5 6 = ("MARKET", none) := by decide

/-- `Evaluator._resolve_tie` (evaluator.py lines 109-130).  The
`self.mt5.get_ticks(signal.symbol, bar_time, next_minute)` call (with the
trailing `or []`) is modelled by the `ticks` argument: the tick sequence
covering the ambiguous bar's minute.  The loop scans ticks in the given
order, takes ask for a long and bid for everything else, checks the SL
condition before the TP condition, and falls back to a conservative SL at
the bar's own time when no tick decides. -/
def resolve_tie (sig : Signal) (bar_time : Nat) (entry_type : String) :
    List Tick → Outcome
  | [] => make_result (some "SL") (some (bar_time : ℚ)) entry_type "tie → conservative SL"
  | tick :: rest =>
    let side := pyUpper sig.side
    let price := if side = "BUY" then tick.ask else tick.bid
    let time_ : ℚ := (tick.time : ℚ) / 1000
    if side = "BUY" then
      if price ≤ sig.sl then
        make_result (some "SL") (some time_) entry_type "tie → SL first (tick)"
      else if price ≥ sig.tp then
        make_result (some "TP") (some time_) entry_type "tie → TP first (tick)"
      else resolve_tie sig bar_time entry_type rest
    else
      if price ≥ sig.sl then
        make_result (some "SL") (some time_) entry_type "tie → SL first (tick)"
      else if price ≤ sig.tp then
        make_result (some "TP") (some time_) entry_type "tie → TP first (tick)"
      else resolve_tie sig bar_time entry_type rest

/-- `Evaluator._evaluate_bar` (evaluator.py lines 74-95).  `entry_price`
appears in the source signature but is never read in the body; it is kept
for fidelity.  The `ticks` argument carries the tick window `_resolve_tie`
would fetch for this bar. -/
def evaluate_bar (sig : Signal) (bar : Bar) (in_trade : Bool)
    (entry_type : String) (entry_price : Option ℚ) (ticks : List Tick) :
    Option Outcome :=
  let side := pyUpper sig.side
  let bar_time := bar.time
  if !in_trade then
    none
  else
    let tp_hit : Bool := if side = "BUY" then bar.high ≥ sig.tp else bar.low ≤ sig.tp
    let sl_hit : Bool := if side = "BUY" then bar.low ≤ sig.sl else bar.high ≥ sig.sl
    if tp_hit && sl_hit then some (resolve_tie sig bar_time entry_type ticks)
    else if tp_hit then some (make_result (some "TP") (some (bar_time : ℚ)) entry_type "")
    else if sl_hit then some (make_result (some "SL") (some (bar_time : ℚ)) entry_type "")
    else none

/-- `Evaluator._check_entry_trigger` (evaluator.py lines 98-106). -/
def check_entry_trigger (sig : Signal) (bar : Bar) (entry_price : ℚ) : Bool :=
  let side := pyUpper sig.side
  if side = "BUY" ∧ bar.high ≥ entry_price then true
  else if side = "SELL" ∧ bar.low ≤ entry_price then true
  else false

/-- Python truthiness of the optional float `entry_price`, as tested by
`if not in_trade and entry_price:` in `evaluate_signal` (line 68):
`None` and `0.0` are falsy, every other float is truthy. -/
def pyTruthy : Option ℚ → Bool
  | none => false
  | some p => decide (p ≠ 0)

/-- The `for bar in bars` loop of `Evaluator.evaluate_signal`
(evaluator.py lines 64-71), including the `"timeout"` fall-through of
line 71.  `get_ticks` maps a bar's start time to the tick window
`_resolve_tie` fetches for it; `in_trade` threads the activation flag,
updated from `_check_entry_trigger` only after the bar has been passed to
`_evaluate_bar`. -/
def walk_bars (sig : Signal) (get_ticks : Nat → List Tick)
    (entry_type : String) (entry_price : Option ℚ) :
    Bool → List Bar → Outcome
  | _, [] => make_result none none entry_type "timeout"
  | in_trade, bar :: rest =>
    match evaluate_bar sig bar in_trade entry_type entry_price (get_ticks bar.time) with
    | some result => result
    | none =>
      if !in_trade && pyTruthy entry_price then
        walk_bars sig get_ticks entry_type entry_price
          (check_entry_trigger sig bar (entry_price.getD 0)) rest
      else
        walk_bars sig get_ticks entry_type entry_price in_trade rest

/-- A Python exception surfaced by the embedded code. -/
inductive PyError
  | attributeError (obj attr : String)
  deriving Repr, DecidableEq

/-- Attribute lookup of a timestamp-valued field on the `Signal` dataclass
of `src/domain/models.py`, whose fields are `message_id`, `created_at`,
`symbol`, `side`, `entry_low`, `entry_high`, `tp`, `sl`, `raw_text`.
A lookup of any other name raises `AttributeError`, as Python attribute
access on a dataclass does.  Used to model line 55 of evaluator.py, which
reads the misspelled attribute `created_atW`. -/
def signal_time_attr (sig : Signal) (name : String) : Except PyError Nat :=
  if name = "created_at" then Except.ok sig.created_at
  else Except.error (PyError.attributeError "Signal" name)

/-- Lines 56-71 of `Evaluator.evaluate_signal`, verbatim: the code that
follows the line-55 attribute read, as a function of the entry decision
computed at line 54 and of the `evaluation_start` value the line-55 read
would have produced.  In the program as it stands this code is
unreachable — line 55 raises `AttributeError` on every call (see
`evaluate_signal` below and C1) — so every statement about this
definition describes the scanning code as written, not a completed run of
the source program.  `get_bars` models
`self.mt5.get_bars(symbol, TIMEFRAME_M1, start, end) or []` (timestamps
in epoch seconds; the `or []` collapses a `None` reply to the empty
list). -/
def evaluate_signal_body (get_bars : Nat → Nat → List Bar)
    (get_ticks : Nat → List Tick) (sig : Signal) (timeout_minutes : Nat)
    (entry_type : String) (entry_price : Option ℚ)
    (evaluation_start : Nat) : Outcome :=
  let evaluation_end := sig.created_at + timeout_minutes * 60
  let bars := get_bars evaluation_start evaluation_end
  if bars.isEmpty then
    make_result none none entry_type "no bars"
  else
    walk_bars sig get_ticks entry_type entry_price
      (decide (entry_type = "MARKET")) bars

/-- `Evaluator.evaluate_signal` (evaluator.py lines 42-71), faithful to the
source including line 55, `evaluation_start = signal.created_atW` — an
attribute the `Signal` dataclass does not define, so the lookup raises and
the rest of the function (`evaluate_signal_body`) is never reached.
`self.mt5.ensure_symbol` is an external side effect with no bearing on the
result and is not modelled.  The default `timeout_minutes` at the Python
call site is `24 * 60`. -/
def evaluate_signal (tick : Option SymbolInfoTick)
    (get_bars : Nat → Nat → List Bar) (get_ticks : Nat → List Tick)
    (sig : Signal) (timeout_minutes : Nat) : Except PyError Outcome :=
  let etp := decide_entry tick sig.side sig.entry_low sig.entry_high
  match signal_time_attr sig "created_atW" with
  | Except.error e => Except.error e
  | Except.ok evaluation_start =>
    Except.ok (evaluate_signal_body get_bars get_ticks sig timeout_minutes
      etp.1 etp.2 evaluation_start)

example :
    evaluate_signal_body (fun _ _ => [⟨0, 101, 99⟩, ⟨60, 111, 100⟩]) (fun _ => [])
      ⟨1, 0, "XAUUSD", "BUY", 100, 102, 110, 95, "t"⟩ 1440 "MARKET" (some 100) 0
    = make_result (some "TP") (some 60) "MARKET" "" := by decide

example :
    evaluate_signal_body (fun _ _ => [⟨0, 106, 89⟩]) (fun _ => [])
      ⟨1, 0, "XAUUSD", "SELL", 100, 102, 90, 105, "t"⟩ 1440 "MARKET" (some 100) 0
    = make_result (some "SL") (some 0) "MARKET" "tie → conservative SL" := by decide

/-- The `TradeHandle` dataclass of `src/models/trade_handle.py`: position
ticket, the signal, the signal-derived entry price, the actually executed
price, open timestamp, market price observed at signal time, the sibling
pending-order tickets (default `[]`), and the parent flag (default
`False`). -/
structure TradeHandle where
  ticket : Int
  signal : Signal
  signal_entry_price : ℚ
  executed_price : ℚ
  opened_at : Nat
  market_price_at_signal : ℚ
  pending_order_tickets : List Int
  is_parent : Bool
  deriving Repr, DecidableEq

/-- A closing deal as consumed by `TradeMonitor._build_row_from_deal`:
`deal.time` (epoch seconds) and `deal.price`. -/
structure Deal where
  time : Nat
  price : ℚ
  deriving Repr, DecidableEq

/-- The result row dict built by `TradeMonitor._build_row_from_deal`
(trade_monitor.py lines 123-134). -/
structure Row where
  message_id : Int
  symbol : String
  direction : String
  entry_price_signal : ℚ
  take_profit : ℚ
  stop_loss : ℚ
  market_price_at_signal : ℚ
  open_timestamp : Nat
  close_timestamp : Nat
  result : String
  deriving Repr, DecidableEq

/-- Python's built-in `abs` on a rational. -/
def pyAbs (q : ℚ) : ℚ := if q < 0 then -q else q

theorem pyAbs_eq_abs (q : ℚ) : pyAbs q = |q| := by
  unfold pyAbs
  rcases lt_or_le q 0 with h | h
  · rw [if_pos h, abs_of_neg h]
  · rw [if_neg (not_lt.mpr h), abs_of_nonneg h]

/-- `TradeMonitor._get_result_of_signal` (trade_monitor.py lines 136-143):
`TOLERANCE = 1.0`; `"TP"` iff `abs(close_price - signal.tp) <= TOLERANCE`,
otherwise `"SL"`. -/
def get_result_of_signal (sig : Signal) (close_price : ℚ) : String :=
  let tolerance : ℚ := 1
  let diff := pyAbs (close_price - sig.tp)
  if diff ≤ tolerance then "TP" else "SL"

/-- `TradeMonitor._build_row_from_deal` (trade_monitor.py lines 115-134). -/
def build_row_from_deal (trade : TradeHandle) (deal : Deal) : Row :=
  let sig := trade.signal
  let hit_time := deal.time
  let close_price := deal.price
  let result := get_result_of_signal sig close_price
  { message_id := sig.message_id
    symbol := sig.symbol
    direction := sig.side
    entry_price_signal := trade.signal_entry_price
    take_profit := sig.tp
    stop_loss := sig.sl
    market_price_at_signal := trade.market_price_at_signal
    open_timestamp := sig.created_at
    close_timestamp := hit_time
    result := result }

/-- The CLOSED→RESOLVED step of `TradeMonitor.monitor_trade`
(trade_monitor.py lines 62-70): once the position is no longer reported
open, fetch the historical deals for the position; with no deals yet
(`if not history`) the monitor keeps polling (`none`); otherwise the last
deal (`history[-1]`) is the closing deal and is classified into the row
that is appended and flushed. -/
def monitor_resolve (trade : TradeHandle) (history : List Deal) : Option Row :=
  match history.getLast? with
  | none => none
  | some closing_deal => some (build_row_from_deal trade closing_deal)

/-- An attribute value of order-ticket shape on a `TradeHandle`. -/
inductive TicketAttr
  | int (n : Int)
  | list (l : List Int)
  deriving Repr, DecidableEq

/-- `getattr(trade, name, None)` on the `TradeHandle` dataclass, restricted
to the ticket-valued attributes: the dataclass fields are `ticket`,
`signal`, `signal_entry_price`, `executed_price`, `opened_at`,
`market_price_at_signal`, `pending_order_tickets`, `is_parent`.  `ticket`
is an int, `pending_order_tickets` a list of ints; looking up any other
name — in particular the singular `pending_order_ticket` read at
trade_monitor.py lines 53 and 72 — falls through to the `getattr` default
`None`. -/
def tradeHandle_getattr (trade : TradeHandle) (name : String) : Option TicketAttr :=
  if name = "ticket" then some (TicketAttr.int trade.ticket)
  else if name = "pending_order_tickets" then some (TicketAttr.list trade.pending_order_tickets)
  else none

/-- The sibling-cleanup step of `TradeMonitor.monitor_trade`
(trade_monitor.py lines 72-106), abstracted to the list of pending-order
tickets on which `self.mt5.cancel_pending_order` is invoked.
`get_orders pt` models `self.mt5.get_orders(ticket=pt)` (the orders still
reported live for that ticket); the guard is
`if row["result"] == "TP" and pending_ticket is not None`, with
`pending_ticket = getattr(trade, "pending_order_ticket", None)`, and the
cancellation call happens only `if orders:`.  A list-valued attribute can
never be returned for the singular name, so the `TicketAttr.list` case is
unreachable and attempts nothing. -/
def cancellation_attempts (get_orders : Int → List Int)
    (trade : TradeHandle) (row : Row) : List Int :=
  match tradeHandle_getattr trade "pending_order_ticket" with
  | some (TicketAttr.int pending_ticket) =>
    if row.result = "TP" then
      if !(get_orders pending_ticket).isEmpty then [pending_ticket] else []
    else []
  | _ => []

/-- Whether a tick decides the tie in `_resolve_tie`'s scan: for a long the
side-relevant price is the ask and the tick decides iff it satisfies the SL
condition (`ask ≤ sl`) or the TP condition (`ask ≥ tp`); every other side
uses the bid with the mirrored conditions — exactly the two guards of the
loop body (evaluator.py lines 119-128). -/
def tickDecides (sig : Signal) (tick : Tick) : Bool :=
  if pyUpper sig.side = "BUY" then
    decide (tick.ask ≤ sig.sl) || decide (tick.ask ≥ sig.tp)
  else
    decide (tick.bid ≥ sig.sl) || decide (tick.bid ≤ sig.tp)

/-- A concrete long signal used by several witnesses: band [100, 102],
TP 110, SL 95. -/
def sigLong : Signal := ⟨7, 0, "XAUUSD", "BUY", 100, 102, 110, 95, "raw"⟩

/-- A concrete trade handle for `sigLong` carrying two live sibling
pending-order tickets. -/
def handleSiblings : TradeHandle := ⟨1001, sigLong, 100, 100, 0, 99, [111, 222], true⟩

/-- Claim C1: for every signal whose bar and tick sources respond,
`Evaluator.evaluate_signal` completes and returns an outcome dict without
raising any exception.  Refuted by the code: line 55 reads
`signal.created_atW`, an attribute the `Signal` dataclass does not define,
so every call — whatever the quote, bar and tick sources return — raises
`AttributeError` before any bar is examined. -/
theorem C1_evaluate_signal_always_raises (tick : Option SymbolInfoTick)
    (get_bars : Nat → Nat → List Bar) (get_ticks : Nat → List Tick)
    (sig : Signal) (timeout_minutes : Nat) :
    evaluate_signal tick get_bars get_ticks sig timeout_minutes
      = Except.error (PyError.attributeError "Signal" "created_atW") := rfl

/-- Claim C2: a resolved TP outcome with a non-empty sibling set gets a
cancellation attempt on every live sibling.  Refuted by the code: the
sibling tickets live in `TradeHandle.pending_order_tickets`, but
`monitor_trade` reads `getattr(trade, "pending_order_ticket", None)` — a
name no code path ever sets — so the guard is never taken and no
cancellation is ever attempted, shown here both on a handle with two live
siblings and a TP row, and universally. -/
theorem C2_sibling_cancellation_never_attempted :
    (cancellation_attempts (fun _ => [1]) handleSiblings
        (build_row_from_deal handleSiblings ⟨120, 110⟩) = []
      ∧ handleSiblings.pending_order_tickets = [111, 222]
      ∧ (build_row_from_deal handleSiblings ⟨120, 110⟩).result = "TP")
    ∧ ∀ (get_orders : Int → List Int) (trade : TradeHandle) (row : Row),
        cancellation_attempts get_orders trade row = [] :=
  ⟨⟨rfl, rfl, by norm_num [build_row_from_deal, get_result_of_signal,
      handleSiblings, sigLong, pyAbs]⟩, fun _ _ _ => rfl⟩

/-- Claim C7: the entry decision implements the documented trichotomy —
long: entry_low strictly above the ask gives a pending stop at entry_low,
entry_high strictly below the ask gives a pending limit at entry_high,
otherwise an immediate market entry at the ask; short mirrors with the
bid.  Confirmed on `decide_entry`. -/
theorem C7_decide_entry_trichotomy (t : SymbolInfoTick) (side : String) (el eh : ℚ) :
    (pyUpper side = "BUY" →
      (el > t.ask → decide_entry (some t) side el eh = ("BUY_STOP", some el))
      ∧ (¬ el > t.ask → eh < t.ask →
          decide_entry (some t) side el eh = ("BUY_LIMIT", some eh))
      ∧ (¬ el > t.ask → ¬ eh < t.ask →
          decide_entry (some t) side el eh = ("MARKET", some t.ask)))
    ∧ (pyUpper side ≠ "BUY" →
      (eh < t.bid → decide_entry (some t) side el eh = ("SELL_STOP", some eh))
      ∧ (¬ eh < t.bid → el > t.bid →
          decide_entry (some t) side el eh = ("SELL_LIMIT", some el))
      ∧ (¬ eh < t.bid → ¬ el > t.bid →
          decide_entry (some t) side el eh = ("MARKET", some t.bid))) := by
  refine ⟨fun hs => ⟨fun h1 => ?_, fun h1 h2 => ?_, fun h1 h2 => ?_⟩,
          fun hs => ⟨fun h1 => ?_, fun h1 h2 => ?_, fun h1 h2 => ?_⟩⟩ <;>
    simp [decide_entry, hs, h1, *]

/-- Witness for C7 at concrete quotes: a long band strictly above the ask
becomes a stop at entry_low; a short band whose entry_low is above the bid
becomes a limit at entry_low. -/
theorem C7_decide_entry_trichotomy_witness :
    decide_entry (some ⟨3, 2⟩) "BUY" 5 6 = ("BUY_STOP", some 5)
    ∧ decide_entry (some ⟨3, 4⟩) "SELL" 5 6 = ("SELL_LIMIT", some 5) :=
  ⟨((C7_decide_entry_trichotomy ⟨3, 2⟩ "BUY" 5 6).1 (by decide)).1 (by decide),
   ((C7_decide_entry_trichotomy ⟨3, 4⟩ "SELL" 5 6).2 (by decide)).2.1
      (by decide) (by decide)⟩

/-- Claim C10: `decide_entry` returns a `None` reference price exactly when
the symbol quote is unavailable, in which case the decision is MARKET;
whenever a quote is available the returned price is concrete — the ask,
the bid, or one of the band bounds.  Confirmed. -/
theorem C10_decide_entry_price_invariant (side : String) (el eh : ℚ) :
    decide_entry none side el eh = ("MARKET", none)
    ∧ ∀ t : SymbolInfoTick, ∃ p : ℚ,
        (decide_entry (some t) side el eh).2 = some p
        ∧ (p = t.ask ∨ p = t.bid ∨ p = el ∨ p = eh) := by
  refine ⟨rfl, fun t => ?_⟩
  simp only [decide_entry]
  split_ifs
  exacts [⟨el, rfl, Or.inr (Or.inr (Or.inl rfl))⟩,
    ⟨eh, rfl, Or.inr (Or.inr (Or.inr rfl))⟩,
    ⟨t.ask, rfl, Or.inl rfl⟩,
    ⟨eh, rfl, Or.inr (Or.inr (Or.inr rfl))⟩,
    ⟨el, rfl, Or.inr (Or.inr (Or.inl rfl))⟩,
    ⟨t.bid, rfl, Or.inr (Or.inl rfl)⟩]

/-- Claim C5: `_resolve_tie` scans ticks in ascending order using the
side-relevant price (ask for long, bid for short) and checks the SL
condition before the TP condition; so whenever every tick before `t` is
non-deciding and `t` satisfies the SL condition, the outcome is SL with
the tie-break note, whatever the later ticks show.  Confirmed. -/
theorem C5_tie_break_sl_first (sig : Signal) (bar_time : Nat)
    (entry_type : String) (pre rest : List Tick) (t : Tick) :
    (pyUpper sig.side = "BUY" →
      (∀ t' ∈ pre, tickDecides sig t' = false) →
      t.ask ≤ sig.sl →
      resolve_tie sig bar_time entry_type (pre ++ t :: rest)
        = make_result (some "SL") (some ((t.time : ℚ) / 1000)) entry_type
            "tie → SL first (tick)")
    ∧ (pyUpper sig.side ≠ "BUY" →
      (∀ t' ∈ pre, tickDecides sig t' = false) →
      t.bid ≥ sig.sl →
      resolve_tie sig bar_time entry_type (pre ++ t :: rest)
        = make_result (some "SL") (some ((t.time : ℚ) / 1000)) entry_type
            "tie → SL first (tick)") := by
  constructor
  · intro hs
    induction pre with
    | nil =>
      intro _ hsl
      simp [resolve_tie, hs, hsl]
    | cons p ps ih =>
      intro hpre hsl
      have hp := hpre p (List.mem_cons_self p ps)
      rw [tickDecides, if_pos hs, Bool.or_eq_false_iff,
        decide_eq_false_iff_not, decide_eq_false_iff_not] at hp
      simp only [List.cons_append, resolve_tie, hs, if_true]
      rw [if_neg hp.1, if_neg hp.2]
      exact ih (fun t' h' => hpre t' (List.mem_cons_of_mem p h')) hsl
  · intro hs
    induction pre with
    | nil =>
      intro _ hsl
      simp [resolve_tie, hs, hsl]
    | cons p ps ih =>
      intro hpre hsl
      have hp := hpre p (List.mem_cons_self p ps)
      rw [tickDecides, if_neg hs, Bool.or_eq_false_iff,
        decide_eq_false_iff_not, decide_eq_false_iff_not] at hp
      simp only [List.cons_append, resolve_tie]
      rw [if_neg hs, if_neg hs, if_neg hp.1, if_neg hp.2]
      exact ih (fun t' h' => hpre t' (List.mem_cons_of_mem p h')) hsl

/-- Witness for C5: a long tie where the first tick is silent, the second
confirms SL, and a later tick would confirm TP still resolves SL at the
second tick's time. -/
theorem C5_tie_break_sl_first_witness :
    resolve_tie sigLong 0 "MARKET"
      [⟨0, 100, 100⟩, ⟨500, 94, 94⟩, ⟨600, 120, 120⟩]
      = make_result (some "SL") (some ((500 : ℚ) / 1000)) "MARKET"
          "tie → SL first (tick)" :=
  (C5_tie_break_sl_first sigLong 0 "MARKET" [⟨0, 100, 100⟩] [⟨600, 120, 120⟩]
      ⟨500, 94, 94⟩).1 (by decide) (by decide) (by decide)

/-- Claim C6: an ambiguous bar whose tick window is empty or contains no
tick confirming either side resolves to SL with the conservative-fallback
note — never TP, never NONE.  Confirmed on `_resolve_tie`. -/
theorem C6_tie_break_conservative_fallback (sig : Signal) (bar_time : Nat)
    (entry_type : String) (ticks : List Tick)
    (h : ∀ t ∈ ticks, tickDecides sig t = false) :
    resolve_tie sig bar_time entry_type ticks
      = make_result (some "SL") (some (bar_time : ℚ)) entry_type
          "tie → conservative SL" := by
  induction ticks with
  | nil => rfl
  | cons t rest ih =>
    have ht := h t (List.mem_cons_self t rest)
    have hrest : ∀ t' ∈ rest, tickDecides sig t' = false :=
      fun t' h' => h t' (List.mem_cons_of_mem t h')
    by_cases hs : pyUpper sig.side = "BUY"
    · rw [tickDecides, if_pos hs, Bool.or_eq_false_iff,
        decide_eq_false_iff_not, decide_eq_false_iff_not] at ht
      simp only [resolve_tie]
      rw [if_pos hs, if_pos hs, if_neg ht.1, if_neg ht.2]
      exact ih hrest
    · rw [tickDecides, if_neg hs, Bool.or_eq_false_iff,
        decide_eq_false_iff_not, decide_eq_false_iff_not] at ht
      simp only [resolve_tie]
      rw [if_neg hs, if_neg hs, if_neg ht.1, if_neg ht.2]
      exact ih hrest

/-- Witness for C6: the empty tick window of an ambiguous bar resolves SL
with the fallback note. -/
theorem C6_tie_break_conservative_fallback_witness :
    resolve_tie sigLong 60 "MARKET" []
      = make_result (some "SL") (some 60) "MARKET" "tie → conservative SL" :=
  C6_tie_break_conservative_fallback sigLong 60 "MARKET" [] (by simp)

/-- Claim C8: once the position has closed and a closing transaction is
found, the live outcome is classified from the last deal, and its result
is `"TP"` exactly when the closing price lies within the fixed tolerance
(1.0) of the signal's take-profit, and `"SL"` in every other case.
Confirmed on `monitor_resolve` / `_build_row_from_deal` /
`_get_result_of_signal`. -/
theorem C8_close_price_classification (trade : TradeHandle)
    (history : List Deal) (deal : Deal) (h : history.getLast? = some deal) :
    monitor_resolve trade history = some (build_row_from_deal trade deal)
    ∧ ((build_row_from_deal trade deal).result = "TP"
        ↔ |deal.price - trade.signal.tp| ≤ 1)
    ∧ ((build_row_from_deal trade deal).result = "SL"
        ↔ ¬ |deal.price - trade.signal.tp| ≤ 1) := by
  refine ⟨by simp [monitor_resolve, h], ?_, ?_⟩
  · simp only [build_row_from_deal, get_result_of_signal, pyAbs_eq_abs]
    split_ifs with hd
    · simpa using hd
    · simpa using hd
  · simp only [build_row_from_deal, get_result_of_signal, pyAbs_eq_abs]
    split_ifs with hd
    · simpa using hd
    · simpa using hd

/-- Claim C3 counterexample: for the long signal `sigLong` (band [100,102],
TP 110, SL 95) quoted below its band the entry decision is the pending
`BUY_STOP` at 100 — not `MARKET`, so the scan of lines 56-71 starts
inactive (line 62 sets `in_trade = entry_type == "MARKET"`).  The single
supplied bar both activates the entry (high 111 ≥ 100 per
`_check_entry_trigger`) and satisfies the long TP-hit predicate (high 111
≥ TP 110), yet the scan loop — and the whole scanning body as written —
returns the timeout outcome with no status: the activating bar is not
TP/SL-classified, contradicting the claim that the predicates are
evaluated on the activating bar itself. -/
theorem C3_activating_bar_skipped_counterexample :
    decide_entry (some ⟨99, 98⟩) sigLong.side sigLong.entry_low sigLong.entry_high
      = ("BUY_STOP", some 100)
    ∧ "BUY_STOP" ≠ "MARKET"
    ∧ check_entry_trigger sigLong ⟨60, 111, 100⟩ 100 = true
    ∧ ((111 : ℚ) ≥ sigLong.tp)
    ∧ walk_bars sigLong (fun _ => []) "BUY_STOP" (some 100) false [⟨60, 111, 100⟩]
      = make_result none none "BUY_STOP" "timeout"
    ∧ evaluate_signal_body (fun _ _ => [⟨60, 111, 100⟩]) (fun _ => []) sigLong 1440
        "BUY_STOP" (some 100) 0
      = make_result none none "BUY_STOP" "timeout" :=
  ⟨by decide, by decide, by decide, by decide, by decide, by decide⟩

/-- Claim C3, amended, about the scan loop as written (reachable only
once the line-55 slip of C1 is repaired): while in a pending state a bar
is never TP/SL-classified — it only updates the entry trigger, so
classification starts on the bar after the activating one; once the trade
is active every bar, the first included, is classified by `_evaluate_bar`;
and with a MARKET entry type the body of lines 56-71 runs the walk active
from the very first bar (line 62). -/
theorem C3_classification_starts_after_activation (sig : Signal)
    (get_ticks : Nat → List Tick) (entry_type : String)
    (entry_price : Option ℚ) (b : Bar) (rest : List Bar) :
    walk_bars sig get_ticks entry_type entry_price false (b :: rest)
      = walk_bars sig get_ticks entry_type entry_price
          (if pyTruthy entry_price then check_entry_trigger sig b (entry_price.getD 0)
           else false) rest
    ∧ walk_bars sig get_ticks entry_type entry_price true (b :: rest)
      = (match evaluate_bar sig b true entry_type entry_price (get_ticks b.time) with
         | some r => r
         | none => walk_bars sig get_ticks entry_type entry_price true rest)
    ∧ ∀ (get_bars : Nat → Nat → List Bar) (tm evaluation_start : Nat),
        get_bars evaluation_start (sig.created_at + tm * 60) ≠ [] →
        evaluate_signal_body get_bars get_ticks sig tm "MARKET" entry_price
            evaluation_start
          = walk_bars sig get_ticks "MARKET" entry_price true
              (get_bars evaluation_start (sig.created_at + tm * 60)) := by
  refine ⟨?_, ?_, ?_⟩
  · by_cases hp : pyTruthy entry_price <;>
      simp [walk_bars, evaluate_bar, hp]
  · cases heb : evaluate_bar sig b true entry_type entry_price (get_ticks b.time) <;>
      simp [walk_bars, heb]
  · intro get_bars tm evaluation_start hne
    simp only [evaluate_signal_body, List.isEmpty_iff]
    rw [if_neg hne]
    simp

/-- Witness for C3's amended theorem: with a MARKET entry type the written
body is the bar walk started in the active state on the first bar. -/
theorem C3_classification_starts_after_activation_witness :
    evaluate_signal_body (fun _ _ => [⟨0, 101, 99⟩]) (fun _ => []) sigLong 1440
      "MARKET" (some 100) 0
      = walk_bars sigLong (fun _ => []) "MARKET" (some 100) true [⟨0, 101, 99⟩] :=
  (C3_classification_starts_after_activation sigLong (fun _ => []) "MARKET"
      (some 100) ⟨0, 101, 99⟩ []).2.2 (fun _ _ => [⟨0, 101, 99⟩]) 1440 0 (by decide)

/-- A concrete malformed long signal: direction BUY but take-profit (94)
below stop-loss (95). -/
def sigMalformed : Signal := ⟨8, 0, "XAUUSD", "BUY", 100, 102, 94, 95, "raw"⟩

/-- Claim C4 counterexample: the malformed long signal `sigMalformed`
(take-profit 94 ≤ stop-loss 95) is not rejected and no validation failure
is surfaced: the call to `evaluate_signal` produces exactly the same
line-55 `AttributeError` as the well-formed `sigLong` — an error that
mentions no validation and does not depend on the input being malformed —
and the scanning body as written (lines 56-71) would not reject it
either: it scans the malformed signal to a TP outcome. -/
theorem C4_no_rejection_counterexample :
    pyUpper sigMalformed.side = "BUY"
    ∧ sigMalformed.tp ≤ sigMalformed.sl
    ∧ evaluate_signal none (fun _ _ => [⟨0, 96, 96⟩]) (fun _ => [])
        sigMalformed 1440
      = evaluate_signal none (fun _ _ => [⟨0, 96, 96⟩]) (fun _ => []) sigLong 1440
    ∧ evaluate_signal none (fun _ _ => [⟨0, 96, 96⟩]) (fun _ => [])
        sigMalformed 1440
      = Except.error (PyError.attributeError "Signal" "created_atW")
    ∧ evaluate_signal_body (fun _ _ => [⟨0, 96, 96⟩]) (fun _ => [])
        sigMalformed 1440 "MARKET" none 0
      = make_result (some "TP") (some 0) "MARKET" "" :=
  ⟨by decide, by decide, rfl, rfl, by decide⟩

/-- Claim C4, amended: evaluation performs no validation — no component
inspects the entry band or the TP/SL direction for well-formedness, and
no validation failure is ever surfaced.  The observable result of
`evaluate_signal` is identical for every signal, malformed or not (always
the line-55 `AttributeError` of C1), and the scanning code as written is
equally oblivious: a long whose take-profit does not exceed its stop-loss
is scanned like any other signal and can even resolve to TP. -/
theorem C4_malformed_signals_not_validated (sig other : Signal) :
    (∀ (tick tick' : Option SymbolInfoTick)
       (get_bars get_bars' : Nat → Nat → List Bar)
       (get_ticks get_ticks' : Nat → List Tick) (tm tm' : Nat),
       evaluate_signal tick get_bars get_ticks sig tm
         = evaluate_signal tick' get_bars' get_ticks' other tm')
    ∧ (pyUpper sig.side = "BUY" → sig.tp ≤ sig.sl →
        evaluate_signal_body (fun _ _ => [⟨0, sig.sl + 1, sig.sl + 1⟩])
          (fun _ => []) sig 1440 "MARKET" none 0
          = make_result (some "TP") (some 0) "MARKET" "") := by
  constructor
  · intro _ _ _ _ _ _ _ _
    rfl
  · intro hs h
    have h1 : sig.sl + 1 ≥ sig.tp := by linarith
    have h2 : ¬ (sig.sl + 1 ≤ sig.sl) := by linarith
    simp [evaluate_signal_body, walk_bars, evaluate_bar, make_result, hs, h1, h2]

/-- Witness for C4's amended theorem: the malformed long `sigMalformed`
gets the same result as the well-formed `sigLong`, and the written scan
resolves it TP. -/
theorem C4_malformed_signals_not_validated_witness :
    evaluate_signal none (fun _ _ => []) (fun _ => []) sigMalformed 60
      = evaluate_signal (some ⟨100, 100⟩) (fun _ _ => []) (fun _ => []) sigLong 60
    ∧ evaluate_signal_body
        (fun _ _ => [⟨0, sigMalformed.sl + 1, sigMalformed.sl + 1⟩])
        (fun _ => []) sigMalformed 1440 "MARKET" none 0
      = make_result (some "TP") (some 0) "MARKET" "" :=
  ⟨(C4_malformed_signals_not_validated sigMalformed sigLong).1 none
      (some ⟨100, 100⟩) (fun _ _ => []) (fun _ _ => [])
      (fun _ => []) (fun _ => []) 60 60,
   (C4_malformed_signals_not_validated sigMalformed sigLong).2
      (by decide) (by decide)⟩

/-- Every outcome of the tie-break scan carries a definite status. -/
theorem resolve_tie_status_isSome (sig : Signal) (bar_time : Nat)
    (entry_type : String) : ∀ ticks : List Tick,
    (resolve_tie sig bar_time entry_type ticks).status.isSome = true := by
  intro ticks
  induction ticks with
  | nil => rfl
  | cons t rest ih =>
    simp only [resolve_tie]
    split_ifs <;> first | rfl | exact ih

/-- Every bar that `_evaluate_bar` classifies gets a definite status. -/
theorem evaluate_bar_some_status (sig : Signal) (bar : Bar) (in_trade : Bool)
    (entry_type : String) (entry_price : Option ℚ) (ticks : List Tick)
    (r : Outcome)
    (h : evaluate_bar sig bar in_trade entry_type entry_price ticks = some r) :
    r.status.isSome = true := by
  cases in_trade with
  | false => simp [evaluate_bar] at h
  | true =>
    simp only [evaluate_bar] at h
    split_ifs at h <;>
      · obtain rfl := Option.some.inj h
        first
          | rfl
          | exact resolve_tie_status_isSome _ _ _ _

/-- A bar walk that ends with no status is exactly the timeout outcome. -/
theorem walk_bars_status_none_eq_timeout (sig : Signal)
    (get_ticks : Nat → List Tick) (entry_type : String)
    (entry_price : Option ℚ) :
    ∀ (bars : List Bar) (in_trade : Bool),
      (walk_bars sig get_ticks entry_type entry_price in_trade bars).status = none →
      walk_bars sig get_ticks entry_type entry_price in_trade bars
        = make_result none none entry_type "timeout" := by
  intro bars
  induction bars with
  | nil => intro _ _; rfl
  | cons b rest ih =>
    intro it h
    cases heb : evaluate_bar sig b it entry_type entry_price (get_ticks b.time) with
    | some r =>
      simp only [walk_bars, heb] at h ⊢
      have hr := evaluate_bar_some_status sig b it entry_type entry_price
        (get_ticks b.time) r heb
      rw [h] at hr
      exact absurd hr (by simp)
    | none =>
      simp only [walk_bars, heb] at h ⊢
      split_ifs at h ⊢
      · exact ih _ h
      · exact ih _ h

/-- Claim C9 counterexample: with an empty bar feed the program does not
return a NONE outcome at all — every call raises the line-55
`AttributeError` — and even the empty-bars branch as written (line 60)
carries the literal note `"no bars"`, not the claimed `"no data"`. -/
theorem C9_empty_bars_note_counterexample :
    evaluate_signal none (fun _ _ => []) (fun _ => []) sigLong 1440
      = Except.error (PyError.attributeError "Signal" "created_atW")
    ∧ (evaluate_signal_body (fun _ _ => []) (fun _ => []) sigLong 1440
        "MARKET" none 0).notes = "no bars"
    ∧ "no bars" ≠ "no data" :=
  ⟨rfl, rfl, by decide⟩

/-- Claim C9, amended, about the scan code as written (reachable only
once the line-55 slip of C1 is repaired): if the fetched bar sequence is
empty from the start the body of lines 56-71 returns NONE with note
`"no bars"` (the code's literal, not `"no data"`); exhausting the bars is
the only way the walk finishes with no status, and it yields NONE with
note `"timeout"`. -/
theorem C9_timeout_and_no_bars (get_bars : Nat → Nat → List Bar)
    (get_ticks : Nat → List Tick) (sig : Signal) (timeout_minutes : Nat)
    (entry_type : String) (entry_price : Option ℚ) (evaluation_start : Nat) :
    (get_bars evaluation_start (sig.created_at + timeout_minutes * 60) = [] →
      evaluate_signal_body get_bars get_ticks sig timeout_minutes entry_type
          entry_price evaluation_start
        = make_result none none entry_type "no bars")
    ∧ (∀ in_trade : Bool,
        walk_bars sig get_ticks entry_type entry_price in_trade []
          = make_result none none entry_type "timeout")
    ∧ (∀ (in_trade : Bool) (bars : List Bar),
        (walk_bars sig get_ticks entry_type entry_price in_trade bars).status = none →
        walk_bars sig get_ticks entry_type entry_price in_trade bars
          = make_result none none entry_type "timeout") := by
  refine ⟨fun h => ?_, fun _ => rfl, fun it bars h =>
    walk_bars_status_none_eq_timeout sig get_ticks entry_type entry_price bars it h⟩
  simp [evaluate_signal_body, h]

/-- Witness for C9's amended theorem: an empty bar feed yields NONE with
note "no bars" from the written body; a pending walk whose only bar never
triggers yields NONE with note "timeout". -/
theorem C9_timeout_and_no_bars_witness :
    evaluate_signal_body (fun _ _ => []) (fun _ => []) sigLong 1440 "MARKET" none 0
      = make_result none none "MARKET" "no bars"
    ∧ walk_bars sigLong (fun _ => []) "BUY_STOP" (some 100) false [⟨0, 99, 98⟩]
      = make_result none none "BUY_STOP" "timeout" :=
  ⟨(C9_timeout_and_no_bars (fun _ _ => []) (fun _ => []) sigLong 1440 "MARKET"
      none 0).1 rfl,
   (C9_timeout_and_no_bars (fun _ _ => []) (fun _ => []) sigLong 1440 "BUY_STOP"
      (some 100) 0).2.2 false [⟨0, 99, 98⟩] (by decide)⟩

/-- Witness for C8: a single closing deal at exactly the take-profit
price classifies as TP. -/
theorem C8_close_price_classification_witness :
    monitor_resolve handleSiblings [⟨120, 110⟩]
      = some (build_row_from_deal handleSiblings ⟨120, 110⟩)
    ∧ ((build_row_from_deal handleSiblings ⟨120, 110⟩).result = "TP"
        ↔ |(110 : ℚ) - handleSiblings.signal.tp| ≤ 1)
    ∧ ((build_row_from_deal handleSiblings ⟨120, 110⟩).result = "SL"
        ↔ ¬ |(110 : ℚ) - handleSiblings.signal.tp| ≤ 1) :=
  C8_close_price_classification handleSiblings [⟨120, 110⟩] ⟨120, 110⟩ rfl
